import Mathlib

/-!
Shallow embedding of two components of the optimism repository:

* `op-batcher/batcher/channel_config_provider.go`: the dynamic channel
  config selector (`DynamicEthChannelConfig.ChannelConfig`), which compares
  the normalized byte-costs of calldata vs blob submission.
* `op-node/rollup/derive/channel_in_reader.go`: the channel decoder
  (`ChannelInReader`), a small state machine over a raw-byte buffer, a
  readiness flag, an L1 origin and an origin-complete flag, layered over
  external zlib decompression and RLP stream decoding.

Go `big.Int` quantities are embedded as `Nat` (all fee values are
non-negative, and all arithmetic in the selector is on non-negative values,
so `Nat` agrees with the arbitrary-precision integers of the source).
The external fee oracle is embedded as an `Option FeeQuote` argument
(`none` = the `SuggestGasPriceCaps` call returned an error); the external
zlib/RLP pipeline is embedded as a `StreamModel` parameter, see below.
-/

/-! ### Protocol constants

Values of the constants the selector reads from go-ethereum `params` and
the repository's `op-service/eth` package. -/

/-- Gas per non-zero calldata byte, `params.TxDataNonZeroGasEIP2028` (EIP-2028).
The source binds it as `randomByteCalldataGas`. -/
def randomByteCalldataGas : Nat := 16

/-- Base intrinsic gas of a transaction, `params.TxGas`. -/
def TxGas : Nat := 21000

/-- Modelled from the spec: per-blob total-slot-size protocol constant
(`eth.BlobSize` from the repository's `op-service/eth` package, not under
`src/`), 4096 field elements of 32 bytes each. -/
def BlobSize : Nat := 4096 * 32

/-- Modelled from the spec: per-blob usable-data-capacity protocol constant
(`eth.MaxBlobDataSize` from the repository's `op-service/eth` package, not
under `src/`), `(4*31+3)*1024 - 4` bytes. -/
def MaxBlobDataSize : Nat := (4 * 31 + 3) * 1024 - 4

/-! ### Channel config selector -/

/-- The channel-format parameter set, with the fields the cost model reads
(max bytes per frame, target number of frames per channel) and the
multi-frame-transaction flag the spec's data model lists. -/
structure ChannelConfig where
  MaxFrameSize : Nat
  TargetNumFrames : Nat
  MultiFrameTxs : Bool
  deriving DecidableEq, Repr

/-- A fee quote as returned by a successful `SuggestGasPriceCaps` call. -/
structure FeeQuote where
  tipCap : Nat
  baseFee : Nat
  blobBaseFee : Nat
  deriving DecidableEq, Repr

/-- State of the selector: the two candidate configs and the remembered
`latestConfig`.  In Go, `latestConfig` is a pointer that always points at
one of the two (immutable) config fields, so it is embedded by value. -/
structure DynamicEthChannelConfig where
  blobConfig : ChannelConfig
  calldataConfig : ChannelConfig
  latestConfig : ChannelConfig
  deriving DecidableEq, Repr

/-- Constructor `NewDynamicEthChannelConfig`: stores both configs and seeds
`latestConfig` with the blob config. -/
def NewDynamicEthChannelConfig (blobConfig calldataConfig : ChannelConfig) :
    DynamicEthChannelConfig :=
  { blobConfig := blobConfig
    calldataConfig := calldataConfig
    latestConfig := blobConfig }

/-- Method `ChannelConfig` of `DynamicEthChannelConfig`.  The fee-oracle
call is embedded as the `quote` argument (`none` = fetch error).  On fetch
error the method returns `*dec.latestConfig`.  On success it computes the
calldata and blob cost estimates and compares the cross-products
`blobCost * calldataBytes` and `calldataCost * blobDataBytes`; calldata is
chosen only on a strict `Cmp == 1` (strictly greater).  Note that the Go
method never assigns `dec.latestConfig`, so the returned state is the
unchanged receiver on every path. -/
def DynamicEthChannelConfig.ChannelConfig (dec : DynamicEthChannelConfig)
    (quote : Option FeeQuote) : ChannelConfig × DynamicEthChannelConfig :=
  match quote with
  | none => (dec.latestConfig, dec)
  | some q =>
    let calldataBytes := dec.calldataConfig.MaxFrameSize + 1
    let calldataGas := calldataBytes * randomByteCalldataGas + TxGas
    let calldataPrice := q.baseFee + q.tipCap
    let calldataCost := calldataGas * calldataPrice
    let blobGas := BlobSize * dec.blobConfig.TargetNumFrames
    let blobCalldataCost := TxGas * calldataPrice
    let blobCost := blobGas * q.blobBaseFee + blobCalldataCost
    let blobDataBytes := MaxBlobDataSize * dec.blobConfig.TargetNumFrames
    if blobCost * calldataBytes > calldataCost * blobDataBytes then
      (dec.calldataConfig, dec)
    else
      (dec.blobConfig, dec)

/-- The calldata byte budget the source assumes: one full frame of the
calldata config's max size plus one version byte. -/
def DynamicEthChannelConfig.calldataBytes (dec : DynamicEthChannelConfig) : Nat :=
  dec.calldataConfig.MaxFrameSize + 1

/-- The calldata cost estimate of the source, as a standalone function:
gas `calldataBytes * randomByteCalldataGas + TxGas` times price
`baseFee + tipCap`. -/
def DynamicEthChannelConfig.calldataCost (dec : DynamicEthChannelConfig)
    (tipCap baseFee : Nat) : Nat :=
  (dec.calldataBytes * randomByteCalldataGas + TxGas) * (baseFee + tipCap)

/-- The blob cost estimate of the source, as a standalone function:
blob gas `BlobSize * TargetNumFrames` times the blob base fee, plus the
intrinsic calldata cost `TxGas * (baseFee + tipCap)`. -/
def DynamicEthChannelConfig.blobCost (dec : DynamicEthChannelConfig)
    (tipCap baseFee blobBaseFee : Nat) : Nat :=
  BlobSize * dec.blobConfig.TargetNumFrames * blobBaseFee + TxGas * (baseFee + tipCap)

/-- The blob byte budget of the source: usable blob capacity times the blob
config's target number of frames. -/
def DynamicEthChannelConfig.blobDataBytes (dec : DynamicEthChannelConfig) : Nat :=
  MaxBlobDataSize * dec.blobConfig.TargetNumFrames

/-- The calldata cost formula exactly as the claim states it:
`((MaxFrameSize + 1) * perNonZeroByteGas + baseTxGas) * (tipCap + baseFee)`. -/
def specCalldataCost (maxFrameSize tipCap baseFee : Nat) : Nat :=
  ((maxFrameSize + 1) * randomByteCalldataGas + TxGas) * (tipCap + baseFee)

/-- The blob cost formula exactly as the claim states it:
`(blobSlotSize * TargetNumFrames) * blobBaseFee + baseTxGas * (tipCap + baseFee)`. -/
def specBlobCost (targetNumFrames tipCap baseFee blobBaseFee : Nat) : Nat :=
  (BlobSize * targetNumFrames) * blobBaseFee + TxGas * (tipCap + baseFee)

/-! ### Channel decoder -/

/-- An L1 block reference (`eth.L1BlockRef`): block hash, block number,
parent hash and timestamp.  Hashes are embedded as `Nat`. -/
structure L1BlockRef where
  Hash : Nat
  Number : Nat
  ParentHash : Nat
  Time : Nat
  deriving DecidableEq, Repr

/-- Result of one `Decode` call of the external RLP stream over a
decompressed channel: a decoded batch (embedded as a `Nat` payload), the
end-of-stream signal `io.EOF`, or any other (corruption) error, carried as
a `Nat` error code. -/
inductive DecodeResult where
  | batch (b : Nat)
  | eof
  | corrupt (e : Nat)
  deriving DecidableEq, Repr

/-- Error result of `ReadBatch`: the `io.EOF` need-more-data signal, or any
other error (invalid compression or batch data), carried as a code. -/
inductive ReadErr where
  | eof
  | corrupt (e : Nat)
  deriving DecidableEq, Repr

/-- Interface of the external decompression/decoding pipeline (the
`compress/zlib` reader and the go-ethereum `rlp.Stream`), which the spec
scopes out as external collaborators: a resettable decompressing
byte-stream filter and a byte-stream decoder yielding one structured value
per call.  `zlibInitErr d` is the outcome of initializing (`zlib.NewReader`
or `zlibReader.Reset`, which both parse the zlib header the same way) a
zlib reader over the raw bytes `d`: `none` on success, `some e` on a header
error.  `decodeAt d n` is the result of the `n`-th `Decode` call of an RLP
stream freshly `Reset` over the decompression of `d`, with the configured
10,000,000-byte per-value limit.  `decode_sticky` captures that non-EOF
read errors of these libraries persist: a zlib reader stores its first
error and returns it on every later read, and the RLP stream caches its
kind error, so a corrupt read stays corrupt on the next call. -/
structure StreamModel where
  zlibInitErr : List Nat → Option Nat
  decodeAt : List Nat → Nat → DecodeResult
  decode_sticky : ∀ d n e, decodeAt d n = DecodeResult.corrupt e →
    ∃ e2, decodeAt d (n + 1) = DecodeResult.corrupt e2

/-- State of `ChannelInReader`.  The Go fields `r`, `readZlib`, `readRLP`
are the pipeline objects; whether they are `nil` only selects between
create-and-reset and plain reset, which behave identically, so the
embedding keeps just the observable pipeline state: the raw bytes the RLP
stream was last reset over (`streamSrc`) and the number of `Decode` calls
made since that reset (`streamPos`).  `data` is the `[]byte` channel buffer
(`none` = Go `nil`). -/
structure ChannelInReader where
  ready : Bool
  streamSrc : List Nat
  streamPos : Nat
  l1Origin : L1BlockRef
  originComplete : Bool
  data : Option (List Nat)
  deriving DecidableEq, Repr

/-- Constructor `NewChannelInReader`: the zero value of the struct. -/
def NewChannelInReader : ChannelInReader :=
  { ready := false
    streamSrc := []
    streamPos := 0
    l1Origin := { Hash := 0, Number := 0, ParentHash := 0, Time := 0 }
    originComplete := false
    data := none }

/-- Method `AddOrigin`: rejects (with a discontinuity error, embedded as
code `1`) any candidate origin whose parent hash differs from the current
origin's hash, leaving the receiver untouched; otherwise installs the
candidate as current origin and clears `originComplete`. -/
def ChannelInReader.AddOrigin (cr : ChannelInReader) (origin : L1BlockRef) :
    Except Nat Unit × ChannelInReader :=
  if cr.l1Origin.Hash ≠ origin.ParentHash then
    (Except.error 1, cr)
  else
    (Except.ok (), { cr with l1Origin := origin, originComplete := false })

/-- Method `EndOrigin`: sets the origin-complete flag. -/
def ChannelInReader.EndOrigin (cr : ChannelInReader) : ChannelInReader :=
  { cr with originComplete := true }

/-- Method `OriginDone`: reads the origin-complete flag. -/
def ChannelInReader.OriginDone (cr : ChannelInReader) : Bool :=
  cr.originComplete

/-- Method `WriteChannel`: replaces the raw channel bytes and clears the
readiness flag.  The argument is an `Option` because a Go `[]byte` may be
`nil`. -/
def ChannelInReader.WriteChannel (cr : ChannelInReader) (d : Option (List Nat)) :
    ChannelInReader :=
  { cr with data := d, ready := false }

/-- The tail of `ReadBatch` once the pipeline is ready: one
`readRLP.Decode(dest)` call, consuming one position of the stream. -/
def ChannelInReader.decodeStep (M : StreamModel) (cr : ChannelInReader) :
    Except ReadErr Nat × ChannelInReader :=
  match M.decodeAt cr.streamSrc cr.streamPos with
  | DecodeResult.batch b =>
    (Except.ok b, { cr with streamPos := cr.streamPos + 1 })
  | DecodeResult.eof =>
    (Except.error ReadErr.eof, { cr with streamPos := cr.streamPos + 1 })
  | DecodeResult.corrupt e =>
    (Except.error (ReadErr.corrupt e), { cr with streamPos := cr.streamPos + 1 })

/-- Method `ReadBatch`.  If the reader is not ready: a `nil` buffer returns
`io.EOF`; otherwise the zlib reader is (re)initialized over the buffered
bytes — on a header error that error is returned as-is with no state
change — and on success the RLP stream is reset over the new pipeline, the
reader becomes ready, and decoding proceeds.  If the reader is ready, it
directly delegates to the RLP stream's `Decode`. -/
def ChannelInReader.ReadBatch (M : StreamModel) (cr : ChannelInReader) :
    Except ReadErr Nat × ChannelInReader :=
  if cr.ready then
    cr.decodeStep M
  else
    match cr.data with
    | none => (Except.error ReadErr.eof, cr)
    | some d =>
      match M.zlibInitErr d with
      | some e => (Except.error (ReadErr.corrupt e), cr)
      | none =>
        ChannelInReader.decodeStep M
          { cr with ready := true, streamSrc := d, streamPos := 0 }

/-- Method `NextChannel`: clears the readiness flag and the buffered bytes. -/
def ChannelInReader.NextChannel (cr : ChannelInReader) : ChannelInReader :=
  { cr with ready := false, data := none }

/-- Method `Reset`: clears the readiness flag and installs the given origin
without touching the buffered data or the origin-complete flag. -/
def ChannelInReader.Reset (cr : ChannelInReader) (origin : L1BlockRef) :
    ChannelInReader :=
  { cr with ready := false, l1Origin := origin }

/-- Method `CurrentL1Origin`: reads the current origin. -/
def ChannelInReader.CurrentL1Origin (cr : ChannelInReader) : L1BlockRef :=
  cr.l1Origin

/-- The state-mutating decoder operations quantified over by the
frame-condition and flag-stability claims: `ReadBatch` (its state effect),
`WriteChannel`, and `NextChannel`. -/
inductive DecoderOp where
  | read
  | write (d : Option (List Nat))
  | next
  deriving DecidableEq, Repr

/-- State effect of one decoder operation. -/
def applyOp (M : StreamModel) (cr : ChannelInReader) : DecoderOp → ChannelInReader
  | DecoderOp.read => (cr.ReadBatch M).2
  | DecoderOp.write d => cr.WriteChannel d
  | DecoderOp.next => cr.NextChannel

/-- State effect of a sequence of decoder operations, first op first. -/
def applyOps (M : StreamModel) (cr : ChannelInReader) (ops : List DecoderOp) :
    ChannelInReader :=
  ops.foldl (applyOp M) cr

/-- The state after `n` further `ReadBatch` calls. -/
def iterRead (M : StreamModel) (cr : ChannelInReader) : Nat → ChannelInReader
  | 0 => cr
  | n + 1 => ((iterRead M cr n).ReadBatch M).2

/-- A state from which the next `ReadBatch` must fail with a corruption
error: either the buffer's zlib header is bad (and the reader not ready),
or the reader is ready and the stream's next decode is corrupt. -/
def Stuck (M : StreamModel) (cr : ChannelInReader) : Prop :=
  (cr.ready = false ∧ ∃ d e, cr.data = some d ∧ M.zlibInitErr d = some e) ∨
  (cr.ready = true ∧ ∃ e, M.decodeAt cr.streamSrc cr.streamPos = DecodeResult.corrupt e)

/-! ### A concrete stream model

Used to instantiate the hypotheses of the decoder theorems on closed
inputs.  Raw bytes starting with `1` have a good zlib header; after the
header, each byte `2` decodes to one batch, any other byte corrupts the
stream, and running out of bytes is end-of-stream. -/

/-- One decode attempt of the concrete model, ignoring earlier corruption. -/
def testStep (d : List Nat) (n : Nat) : DecodeResult :=
  match (List.drop 1 d)[n]? with
  | none => DecodeResult.eof
  | some 2 => DecodeResult.batch n
  | some _ => DecodeResult.corrupt 9

/-- Decode results of the concrete model: corruption is sticky. -/
def testDecodeAt (d : List Nat) : Nat → DecodeResult
  | 0 => testStep d 0
  | n + 1 =>
    match testDecodeAt d n with
    | DecodeResult.corrupt e => DecodeResult.corrupt e
    | _ => testStep d (n + 1)

/-- The concrete stream model. -/
def testStream : StreamModel :=
  { zlibInitErr := fun d =>
      match d with
      | 1 :: _ => none
      | _ => some 7
    decodeAt := testDecodeAt
    decode_sticky := fun _ _ e h => ⟨e, by simp [testDecodeAt, h]⟩ }

/-- A trivial stream model whose streams are always at end-of-stream. -/
def eofStream : StreamModel :=
  { zlibInitErr := fun _ => none
    decodeAt := fun _ _ => DecodeResult.eof
    decode_sticky := fun _ _ _ h => nomatch h }

/-- A reader buffered with bytes whose zlib header is bad. -/
def crBadHeader : ChannelInReader :=
  { NewChannelInReader with data := some [0] }

/-! ### Helper lemmas -/

/-- A decode step only advances the stream position. -/
theorem ChannelInReader.decodeStep_snd (M : StreamModel) (cr : ChannelInReader) :
    (cr.decodeStep M).2 = { cr with streamPos := cr.streamPos + 1 } := by
  unfold ChannelInReader.decodeStep
  cases M.decodeAt cr.streamSrc cr.streamPos <;> rfl

/-- `ReadBatch` on an empty, not-ready reader: `io.EOF`, no state change. -/
theorem ChannelInReader.ReadBatch_empty (M : StreamModel) (cr : ChannelInReader)
    (hr : cr.ready = false) (hd : cr.data = none) :
    cr.ReadBatch M = (Except.error ReadErr.eof, cr) := by
  unfold ChannelInReader.ReadBatch
  rw [hr]
  simp [hd]

/-- `ReadBatch` on a buffered, not-ready reader whose bytes fail zlib
initialization: the error is returned and the state unchanged. -/
theorem ChannelInReader.ReadBatch_bad_header (M : StreamModel) (cr : ChannelInReader)
    (d : List Nat) (e : Nat)
    (hr : cr.ready = false) (hd : cr.data = some d) (hz : M.zlibInitErr d = some e) :
    cr.ReadBatch M = (Except.error (ReadErr.corrupt e), cr) := by
  unfold ChannelInReader.ReadBatch
  simp [hr, hd, hz]

/-- The state effect of `ReadBatch` leaves `l1Origin` and `originComplete`
untouched, and never sets `data` (it only reads it). -/
theorem ChannelInReader.ReadBatch_snd_frame (M : StreamModel) (cr : ChannelInReader) :
    ((cr.ReadBatch M).2).l1Origin = cr.l1Origin ∧
    ((cr.ReadBatch M).2).originComplete = cr.originComplete ∧
    ((cr.ReadBatch M).2).data = cr.data := by
  unfold ChannelInReader.ReadBatch
  split
  · rw [ChannelInReader.decodeStep_snd]
    exact ⟨rfl, rfl, rfl⟩
  · split
    · exact ⟨rfl, rfl, rfl⟩
    · split
      · exact ⟨rfl, rfl, rfl⟩
      · rw [ChannelInReader.decodeStep_snd]
        exact ⟨rfl, rfl, rfl⟩

/-- Every operation in `DecoderOp` leaves `l1Origin` and `originComplete`
untouched. -/
theorem applyOp_frame (M : StreamModel) (cr : ChannelInReader) (op : DecoderOp) :
    (applyOp M cr op).l1Origin = cr.l1Origin ∧
    (applyOp M cr op).originComplete = cr.originComplete := by
  cases op with
  | read =>
    exact ⟨(ChannelInReader.ReadBatch_snd_frame M cr).1,
      (ChannelInReader.ReadBatch_snd_frame M cr).2.1⟩
  | write d => exact ⟨rfl, rfl⟩
  | next => exact ⟨rfl, rfl⟩

/-- Sequences of `ReadBatch`/`WriteChannel`/`NextChannel` leave `l1Origin`
and `originComplete` untouched. -/
theorem applyOps_frame (M : StreamModel) (ops : List DecoderOp) (cr : ChannelInReader) :
    (applyOps M cr ops).l1Origin = cr.l1Origin ∧
    (applyOps M cr ops).originComplete = cr.originComplete := by
  induction ops generalizing cr with
  | nil => exact ⟨rfl, rfl⟩
  | cons op ops ih =>
    have hstep := applyOp_frame M cr op
    have htail := ih (applyOp M cr op)
    exact ⟨htail.1.trans hstep.1, htail.2.trans hstep.2⟩

/-- The success branch of the selector method, re-expressed through the
standalone cost functions (a definitional unfolding of the source's
let-bindings). -/
theorem DynamicEthChannelConfig.ChannelConfig_some_eq (dec : DynamicEthChannelConfig)
    (q : FeeQuote) :
    dec.ChannelConfig (some q) =
      (if dec.blobCost q.tipCap q.baseFee q.blobBaseFee * dec.calldataBytes >
            dec.calldataCost q.tipCap q.baseFee * dec.blobDataBytes
        then (dec.calldataConfig, dec) else (dec.blobConfig, dec)) :=
  rfl

/-- Inversion of a corrupt `decodeStep`: the stream's decode at the current
position was corrupt, and only the position advanced. -/
theorem ChannelInReader.decodeStep_corrupt (M : StreamModel) (cr res : ChannelInReader)
    (e : Nat) (h : cr.decodeStep M = (Except.error (ReadErr.corrupt e), res)) :
    M.decodeAt cr.streamSrc cr.streamPos = DecodeResult.corrupt e ∧
    res = { cr with streamPos := cr.streamPos + 1 } := by
  unfold ChannelInReader.decodeStep at h
  cases hdec : M.decodeAt cr.streamSrc cr.streamPos <;> rw [hdec] at h
  · simp at h
  · simp at h
  · rename_i e1
    injection h with h1 h2
    injection h1 with h1
    injection h1 with h1
    exact ⟨by rw [h1], h2.symm⟩

/-- A `ReadBatch` that returns a corruption error leaves a stuck state. -/
theorem readBatch_corrupt_stuck (M : StreamModel) (cr cr' : ChannelInReader) (e : Nat)
    (h : cr.ReadBatch M = (Except.error (ReadErr.corrupt e), cr')) : Stuck M cr' := by
  by_cases hr : cr.ready = true
  · have heq : cr.ReadBatch M = cr.decodeStep M := by
      unfold ChannelInReader.ReadBatch
      rw [if_pos hr]
    rw [heq] at h
    obtain ⟨hdec, hcr'⟩ := ChannelInReader.decodeStep_corrupt M cr cr' e h
    obtain ⟨e2, hst⟩ := M.decode_sticky _ _ _ hdec
    right
    rw [hcr']
    exact ⟨hr, e2, hst⟩
  · have hrf : cr.ready = false := by simpa using hr
    cases hd : cr.data with
    | none =>
      rw [ChannelInReader.ReadBatch_empty M cr hrf hd] at h
      simp at h
    | some d =>
      cases hz : M.zlibInitErr d with
      | some e0 =>
        rw [ChannelInReader.ReadBatch_bad_header M cr d e0 hrf hd hz] at h
        injection h with h1 h2
        injection h1 with h1
        injection h1 with h1
        left
        rw [← h2]
        exact ⟨hrf, d, e0, hd, h1 ▸ hz⟩
      | none =>
        have heq : cr.ReadBatch M = ChannelInReader.decodeStep M
            { cr with ready := true, streamSrc := d, streamPos := 0 } := by
          unfold ChannelInReader.ReadBatch
          simp [hrf, hd, hz]
        rw [heq] at h
        obtain ⟨hdec, hcr'⟩ := ChannelInReader.decodeStep_corrupt M
          { cr with ready := true, streamSrc := d, streamPos := 0 } cr' e h
        obtain ⟨e2, hst⟩ := M.decode_sticky _ _ _ hdec
        right
        rw [hcr']
        exact ⟨rfl, e2, hst⟩

/-- A stuck state fails the next `ReadBatch` with a corruption error and
stays stuck. -/
theorem stuck_readBatch (M : StreamModel) (cr : ChannelInReader) (h : Stuck M cr) :
    (∃ e, (cr.ReadBatch M).1 = Except.error (ReadErr.corrupt e)) ∧
    Stuck M ((cr.ReadBatch M).2) := by
  rcases h with ⟨hr, d, e, hd, hz⟩ | ⟨hr, e, hdec⟩
  · rw [ChannelInReader.ReadBatch_bad_header M cr d e hr hd hz]
    exact ⟨⟨e, rfl⟩, Or.inl ⟨hr, d, e, hd, hz⟩⟩
  · have hread : cr.ReadBatch M =
        (Except.error (ReadErr.corrupt e), { cr with streamPos := cr.streamPos + 1 }) := by
      unfold ChannelInReader.ReadBatch ChannelInReader.decodeStep
      simp [hr, hdec]
    obtain ⟨e2, hst⟩ := M.decode_sticky _ _ _ hdec
    rw [hread]
    exact ⟨⟨e, rfl⟩, Or.inr ⟨hr, e2, hst⟩⟩

/-! ### Selector claims -/

/-- C1: for every successfully fetched fee quote, `ChannelConfig` returns
the calldata config when `blobCost * calldataBytes > calldataCost *
blobDataBytes` holds, returns the blob config in every other case (exact
equality of the cross-products included), and — whenever the two candidate
configs are distinguishable — returns the calldata config if and only if
the strict cross-product inequality holds. -/
theorem selectConfig_cross_product_rule (dec : DynamicEthChannelConfig) (q : FeeQuote) :
    (dec.blobCost q.tipCap q.baseFee q.blobBaseFee * dec.calldataBytes >
        dec.calldataCost q.tipCap q.baseFee * dec.blobDataBytes →
      (dec.ChannelConfig (some q)).1 = dec.calldataConfig) ∧
    (¬ (dec.blobCost q.tipCap q.baseFee q.blobBaseFee * dec.calldataBytes >
        dec.calldataCost q.tipCap q.baseFee * dec.blobDataBytes) →
      (dec.ChannelConfig (some q)).1 = dec.blobConfig) ∧
    (dec.calldataConfig ≠ dec.blobConfig →
      ((dec.ChannelConfig (some q)).1 = dec.calldataConfig ↔
        dec.blobCost q.tipCap q.baseFee q.blobBaseFee * dec.calldataBytes >
          dec.calldataCost q.tipCap q.baseFee * dec.blobDataBytes)) := by
  have he := dec.ChannelConfig_some_eq q
  by_cases h : dec.blobCost q.tipCap q.baseFee q.blobBaseFee * dec.calldataBytes >
      dec.calldataCost q.tipCap q.baseFee * dec.blobDataBytes
  · refine ⟨fun _ => ?_, fun hc => absurd h hc, fun _ => ?_⟩
    · rw [he]; simp [h]
    · rw [he]; simp [h]
  · refine ⟨fun hc => absurd hc h, fun _ => ?_, fun hne => ?_⟩
    · rw [he]; simp [h]
    · rw [he]
      simp only [if_neg h]
      exact ⟨fun hEq => absurd hEq.symm hne, fun hc => absurd hc h⟩

/-- C1 witness: instantiated at the concrete configs and the high-blob-fee
quote, where the cross-product inequality holds, so calldata is chosen. -/
theorem selectConfig_cross_product_rule_witness :
    ((NewDynamicEthChannelConfig
        { MaxFrameSize := 130044, TargetNumFrames := 1, MultiFrameTxs := true }
        { MaxFrameSize := 120000, TargetNumFrames := 1, MultiFrameTxs := false }).ChannelConfig
      (some { tipCap := 1, baseFee := 1, blobBaseFee := 1000000 })).1 =
      { MaxFrameSize := 120000, TargetNumFrames := 1, MultiFrameTxs := false } :=
  (selectConfig_cross_product_rule
    (NewDynamicEthChannelConfig
      { MaxFrameSize := 130044, TargetNumFrames := 1, MultiFrameTxs := true }
      { MaxFrameSize := 120000, TargetNumFrames := 1, MultiFrameTxs := false })
    { tipCap := 1, baseFee := 1, blobBaseFee := 1000000 }).1 (by decide)

/-- C2: on a successful fetch, the cost estimates the method compares are
exactly the claim's formulas: `calldataCost = ((MaxFrameSize + 1) *
perNonZeroByteGas + baseTxGas) * (tipCap + baseFee)` and `blobCost =
(blobSlotSize * TargetNumFrames) * blobBaseFee + baseTxGas * (tipCap +
baseFee)`, and the method's whole success branch is the cross-product
comparison of those formulas (all over `Nat`, i.e. exact arbitrary-precision
integer arithmetic with no division). -/
theorem channelConfig_cost_formulas (dec : DynamicEthChannelConfig) (q : FeeQuote) :
    dec.calldataCost q.tipCap q.baseFee =
      specCalldataCost dec.calldataConfig.MaxFrameSize q.tipCap q.baseFee ∧
    dec.blobCost q.tipCap q.baseFee q.blobBaseFee =
      specBlobCost dec.blobConfig.TargetNumFrames q.tipCap q.baseFee q.blobBaseFee ∧
    dec.ChannelConfig (some q) =
      (if specBlobCost dec.blobConfig.TargetNumFrames q.tipCap q.baseFee q.blobBaseFee *
            (dec.calldataConfig.MaxFrameSize + 1) >
          specCalldataCost dec.calldataConfig.MaxFrameSize q.tipCap q.baseFee *
            (MaxBlobDataSize * dec.blobConfig.TargetNumFrames)
        then (dec.calldataConfig, dec) else (dec.blobConfig, dec)) := by
  have h1 : dec.calldataCost q.tipCap q.baseFee =
      specCalldataCost dec.calldataConfig.MaxFrameSize q.tipCap q.baseFee := by
    unfold DynamicEthChannelConfig.calldataCost DynamicEthChannelConfig.calldataBytes
      specCalldataCost
    ring
  have h2 : dec.blobCost q.tipCap q.baseFee q.blobBaseFee =
      specBlobCost dec.blobConfig.TargetNumFrames q.tipCap q.baseFee q.blobBaseFee := by
    unfold DynamicEthChannelConfig.blobCost specBlobCost
    ring
  refine ⟨h1, h2, ?_⟩
  rw [dec.ChannelConfig_some_eq q, ← h1, ← h2]
  rfl

/-- C9: with calldata max frame size 120,000 and blob target frame count 1,
the quote `(tipCap, baseFee, blobBaseFee) = (1, 1, 1)` makes the selector's
cross-product comparison pick the blob config, and raising the blob base
fee to 1,000,000 flips the selection to the calldata config. -/
theorem channelConfig_concrete_scenario :
    ((NewDynamicEthChannelConfig
        { MaxFrameSize := 130044, TargetNumFrames := 1, MultiFrameTxs := true }
        { MaxFrameSize := 120000, TargetNumFrames := 1, MultiFrameTxs := false }).ChannelConfig
      (some { tipCap := 1, baseFee := 1, blobBaseFee := 1 })).1 =
      { MaxFrameSize := 130044, TargetNumFrames := 1, MultiFrameTxs := true } ∧
    ((NewDynamicEthChannelConfig
        { MaxFrameSize := 130044, TargetNumFrames := 1, MultiFrameTxs := true }
        { MaxFrameSize := 120000, TargetNumFrames := 1, MultiFrameTxs := false }).ChannelConfig
      (some { tipCap := 1, baseFee := 1, blobBaseFee := 1000000 })).1 =
      { MaxFrameSize := 120000, TargetNumFrames := 1, MultiFrameTxs := false } := by
  decide

/-- C3 evidence: the method never assigns `latestConfig`, so after a
successful fetch that chooses the calldata config, a subsequent failed
fetch still returns the construction-seeded blob config (which differs from
the calldata config here), not the most recently chosen config. -/
theorem latestConfig_never_updated :
    (NewDynamicEthChannelConfig
        { MaxFrameSize := 130044, TargetNumFrames := 1, MultiFrameTxs := true }
        { MaxFrameSize := 120000, TargetNumFrames := 1, MultiFrameTxs := false }).ChannelConfig
      (some { tipCap := 1, baseFee := 1, blobBaseFee := 1000000 }) =
      ({ MaxFrameSize := 120000, TargetNumFrames := 1, MultiFrameTxs := false },
        NewDynamicEthChannelConfig
          { MaxFrameSize := 130044, TargetNumFrames := 1, MultiFrameTxs := true }
          { MaxFrameSize := 120000, TargetNumFrames := 1, MultiFrameTxs := false }) ∧
    ((((NewDynamicEthChannelConfig
        { MaxFrameSize := 130044, TargetNumFrames := 1, MultiFrameTxs := true }
        { MaxFrameSize := 120000, TargetNumFrames := 1, MultiFrameTxs := false }).ChannelConfig
      (some { tipCap := 1, baseFee := 1, blobBaseFee := 1000000 })).2.ChannelConfig none).1 =
      { MaxFrameSize := 130044, TargetNumFrames := 1, MultiFrameTxs := true }) ∧
    ({ MaxFrameSize := 130044, TargetNumFrames := 1, MultiFrameTxs := true } : ChannelConfig) ≠
      { MaxFrameSize := 120000, TargetNumFrames := 1, MultiFrameTxs := false } := by
  decide

/-! ### Decoder claims -/

/-- C7: `ReadBatch`, `WriteChannel` and `NextChannel` never modify the
decoder's current origin: for every state and every sequence of these
calls, `CurrentL1Origin` is the same before and after. -/
theorem currentL1Origin_stable (M : StreamModel) (cr : ChannelInReader)
    (ops : List DecoderOp) :
    (applyOps M cr ops).CurrentL1Origin = cr.CurrentL1Origin :=
  (applyOps_frame M ops cr).1

/-- C6: `AddOrigin` fails exactly when the candidate's parent hash differs
from the current origin's hash; on failure the whole state — in particular
`CurrentL1Origin` — is unchanged, and on success the candidate becomes the
current origin. -/
theorem addOrigin_parent_hash_rule (cr : ChannelInReader) (origin : L1BlockRef) :
    (¬ (cr.AddOrigin origin).1.isOk ↔ cr.l1Origin.Hash ≠ origin.ParentHash) ∧
    (cr.l1Origin.Hash ≠ origin.ParentHash →
      (cr.AddOrigin origin).2 = cr ∧
      ((cr.AddOrigin origin).2).CurrentL1Origin = cr.CurrentL1Origin) ∧
    (cr.l1Origin.Hash = origin.ParentHash →
      ((cr.AddOrigin origin).2).CurrentL1Origin = origin) := by
  unfold ChannelInReader.AddOrigin
  by_cases h : cr.l1Origin.Hash = origin.ParentHash
  · rw [if_neg (by simpa using h)]
    exact ⟨⟨fun hc => absurd rfl hc, fun hne => absurd h hne⟩,
      fun hne => absurd h hne, fun _ => rfl⟩
  · rw [if_pos h]
    exact ⟨⟨fun _ => h, fun _ hc => nomatch hc⟩,
      fun _ => ⟨rfl, rfl⟩, fun he => absurd he h⟩

/-- C6 witness: at the fresh reader (origin hash 0) and a candidate origin
with parent hash 5, `AddOrigin` fails and the state is unchanged. -/
theorem addOrigin_parent_hash_rule_witness :
    (NewChannelInReader.AddOrigin
        { Hash := 1, Number := 1, ParentHash := 5, Time := 0 }).2 = NewChannelInReader ∧
    ((NewChannelInReader.AddOrigin
        { Hash := 1, Number := 1, ParentHash := 5, Time := 0 }).2).CurrentL1Origin =
      NewChannelInReader.CurrentL1Origin :=
  (addOrigin_parent_hash_rule NewChannelInReader
    { Hash := 1, Number := 1, ParentHash := 5, Time := 0 }).2.1 (by decide)

/-- C10: a successful `AddOrigin` resets the origin-complete flag, and it
stays reset — `OriginDone` keeps returning `false` across any further
`ReadBatch`/`WriteChannel`/`NextChannel` calls (i.e. until `EndOrigin` is
next called); a failed `AddOrigin` leaves the flag unchanged. -/
theorem addOrigin_resets_origin_done (M : StreamModel) (cr : ChannelInReader)
    (origin : L1BlockRef) :
    (cr.l1Origin.Hash = origin.ParentHash →
      ((cr.AddOrigin origin).2).OriginDone = false ∧
      ∀ ops : List DecoderOp,
        (applyOps M (cr.AddOrigin origin).2 ops).OriginDone = false) ∧
    (cr.l1Origin.Hash ≠ origin.ParentHash →
      ((cr.AddOrigin origin).2).OriginDone = cr.OriginDone) := by
  unfold ChannelInReader.AddOrigin
  by_cases h : cr.l1Origin.Hash = origin.ParentHash
  · rw [if_neg (by simpa using h)]
    exact ⟨fun _ => ⟨rfl, fun ops => (applyOps_frame M ops _).2⟩,
      fun hne => absurd h hne⟩
  · rw [if_pos h]
    exact ⟨fun he => absurd he h, fun _ => rfl⟩

/-- C10 witness: after `EndOrigin` set the flag, a successful `AddOrigin`
resets it, and it stays `false` across a further `NextChannel`. -/
theorem addOrigin_resets_origin_done_witness :
    (((NewChannelInReader.EndOrigin).AddOrigin
        { Hash := 1, Number := 1, ParentHash := 0, Time := 0 }).2).OriginDone = false ∧
    (applyOps testStream
        (((NewChannelInReader.EndOrigin).AddOrigin
          { Hash := 1, Number := 1, ParentHash := 0, Time := 0 }).2)
        [DecoderOp.next]).OriginDone = false :=
  let h := (addOrigin_resets_origin_done testStream (NewChannelInReader.EndOrigin)
    { Hash := 1, Number := 1, ParentHash := 0, Time := 0 }).1 rfl
  ⟨h.1, h.2 [DecoderOp.next]⟩

/-- C8: `ReadBatch` on the empty state (no buffered bytes, not ready)
returns the `io.EOF` need-more-data signal and leaves the state unchanged. -/
theorem readBatch_empty_eof (M : StreamModel) (cr : ChannelInReader)
    (hr : cr.ready = false) (hd : cr.data = none) :
    cr.ReadBatch M = (Except.error ReadErr.eof, cr) :=
  ChannelInReader.ReadBatch_empty M cr hr hd

/-- C8 witness: the freshly constructed reader is empty, so `ReadBatch`
returns `io.EOF` and changes nothing. -/
theorem readBatch_empty_eof_witness :
    NewChannelInReader.ReadBatch eofStream =
      (Except.error ReadErr.eof, NewChannelInReader) :=
  readBatch_empty_eof eofStream NewChannelInReader rfl rfl

/-- C5: `ReadBatch` in the buffered-not-ready state whose bytes make the
zlib initialization fail returns that failure unchanged, and the state is
untouched: still not ready, with the raw bytes still buffered. -/
theorem readBatch_zlib_init_failure (M : StreamModel) (cr : ChannelInReader)
    (d : List Nat) (e : Nat)
    (hr : cr.ready = false) (hd : cr.data = some d) (hz : M.zlibInitErr d = some e) :
    cr.ReadBatch M = (Except.error (ReadErr.corrupt e), cr) ∧
    ((cr.ReadBatch M).2).ready = false ∧
    ((cr.ReadBatch M).2).data = some d := by
  have hread := ChannelInReader.ReadBatch_bad_header M cr d e hr hd hz
  exact ⟨hread, by rw [hread]; exact hr, by rw [hread]; exact hd⟩

/-- C5 witness: at the concrete model and the bad-header buffer, the init
failure is returned and the buffer is kept. -/
theorem readBatch_zlib_init_failure_witness :
    crBadHeader.ReadBatch testStream = (Except.error (ReadErr.corrupt 7), crBadHeader) ∧
    ((crBadHeader.ReadBatch testStream).2).ready = false ∧
    ((crBadHeader.ReadBatch testStream).2).data = some [0] :=
  readBatch_zlib_init_failure testStream crBadHeader [0] 7 rfl rfl rfl

/-- C4: once a `ReadBatch` returns an error other than `io.EOF`, every
further `ReadBatch` (with no intervening call) fails with such an error as
well — no call ever yields a batch — and from any of those states
`NextChannel` resets the reader to the empty state (no buffered bytes, not
ready), from which reading can proceed again. -/
theorem readBatch_corrupt_requires_abandon (M : StreamModel) (cr cr' : ChannelInReader)
    (e : Nat) (h : cr.ReadBatch M = (Except.error (ReadErr.corrupt e), cr')) :
    (∀ n, ∃ e2, ((iterRead M cr' n).ReadBatch M).1 = Except.error (ReadErr.corrupt e2)) ∧
    (∀ n, ((iterRead M cr' n).NextChannel).data = none ∧
      ((iterRead M cr' n).NextChannel).ready = false) := by
  have hstuck : ∀ n, Stuck M (iterRead M cr' n) := by
    intro n
    induction n with
    | zero => exact readBatch_corrupt_stuck M cr cr' e h
    | succ n ih => exact (stuck_readBatch M _ ih).2
  exact ⟨fun n => (stuck_readBatch M _ (hstuck n)).1, fun n => ⟨rfl, rfl⟩⟩

/-- C4 witness: the bad-header buffer corrupts the first read, and the
second subsequent read still fails with a corruption error. -/
theorem readBatch_corrupt_requires_abandon_witness :
    (∃ e2, ((iterRead testStream crBadHeader 1).ReadBatch testStream).1 =
      Except.error (ReadErr.corrupt e2)) ∧
    ((iterRead testStream crBadHeader 1).NextChannel).data = none :=
  let h := readBatch_corrupt_requires_abandon testStream crBadHeader crBadHeader 7 rfl
  ⟨h.1 1, (h.2 1).1⟩
